import Mathlib

/-
Verification of the lambda-api-example provisioning pipeline.

The repository provisions a single AWS Lambda function with a public
Function URL: IAM role, function (create or update code), URL
configuration plus an anonymous-invoke permission, and a symmetric
destroy path.  The remote AWS account is modelled as an explicit state
record threaded through each operation; every operation additionally
returns the list of network calls it issued, so that call-count and
call-order properties can be stated.  The service model is sequentially
consistent (a created resource is immediately visible to a later
existence check); the eventual-consistency poll of role propagation is
analysed separately with an explicit visibility oracle.  Upstream
failures that the claims quantify over (unexpected provider errors) are
injected through explicit Option String parameters; fallible operations
return Except String.
-/

/-- The remote AWS account state relevant to this system: one role, one
function, one URL configuration and one invoke-permission grant, each
identified by the fixed names the module uses. -/
structure AwsState where
  roleArn : Option String
  fnExists : Bool
  urlConfig : Option String
  permission : Bool
deriving DecidableEq, Repr

/-- The network calls the module can issue against the identity and
function services. -/
inductive Call where
  | getRole
  | createRole
  | attachRolePolicy
  | deleteRole
  | getFunction
  | createFunction
  | updateFunctionCode
  | deleteFunction
  | getFunctionUrlConfig
  | createFunctionUrlConfig
  | deleteFunctionUrlConfig
  | addPermission (statementId : String)
deriving DecidableEq, Repr

namespace LambdaExample

/-- LambdaExample.createRole (src/.dagger/src/index.ts and
src/unnamed/part_000): first sends GetRole (a NoSuchEntityException is
swallowed, any arn found is returned unchanged with no further calls);
otherwise sends CreateRole with the fixed trust policy followed by
AttachRolePolicy, and returns the arn from the creation response.
`fresh` is the arn the identity service assigns on creation. -/
def createRole (fresh : String) (s : AwsState) :
    AwsState × List Call × String :=
  match s.roleArn with
  | some arn => (s, [Call.getRole], arn)
  | none =>
      ({ s with roleArn := some fresh },
       [Call.getRole, Call.createRole, Call.attachRolePolicy], fresh)

end LambdaExample

namespace AwsLambda

/-- The runtime identifiers the platform accepts: the values of the SDK
Runtime enumeration that AwsLambda.create (src/unnamed/part_004) checks
the runtime argument against via Object.values(Runtime).find
(representative value set of the external SDK constant). -/
def runtimes : List String :=
  ["nodejs16.x", "nodejs18.x", "nodejs20.x", "python3.9", "python3.10",
   "python3.11", "python3.12", "java11", "java17", "java21", "dotnet6",
   "dotnet8", "ruby3.2", "ruby3.3", "go1.x", "provided.al2",
   "provided.al2023"]

/-- The instruction-set architectures the platform accepts: the values
of the SDK Architecture enumeration checked by AwsLambda.create. -/
def architectures : List String := ["arm64", "x86_64"]

/-- AwsLambda.readZipFileBytes (src/unnamed/part_004): reads the
exported artifact from disk and fails fatally when it is empty.  A local
file read, not a network call. -/
def readZipFileBytes (zipBytes : List Nat) : Except String (List Nat) :=
  if zipBytes.length = 0 then Except.error "Zip file is empty"
  else Except.ok zipBytes

/-- AwsLambda.exists (src/unnamed/part_004, named functionExists in
src/unnamed/part_000): GetFunction with ResourceNotFoundException mapped
to false; `fault` injects any other upstream failure, which is
rethrown. -/
def functionExists (fault : Option String) (s : AwsState) :
    AwsState × List Call × Except String Bool :=
  match fault with
  | some msg => (s, [Call.getFunction], Except.error msg)
  | none => (s, [Call.getFunction], Except.ok s.fnExists)

/-- AwsLambda.create (src/unnamed/part_004): validates the runtime and
architecture against the platform enumerations before anything is sent,
reads the artifact bytes, then sends CreateFunction; `fresh` is the arn
the service assigns.  The fixed handler, memory and timeout parameters
do not influence any claim and are elided. -/
def create (runtime : String) (architecture : String) (zipBytes : List Nat)
    (fresh : String) (s : AwsState) :
    AwsState × List Call × Except String String :=
  if ¬ runtimes.contains runtime then
    (s, [], Except.error ("Unsupported runtime: " ++ runtime))
  else if ¬ architectures.contains architecture then
    (s, [], Except.error ("Unsupported architecture: " ++ architecture))
  else
    match readZipFileBytes zipBytes with
    | Except.error msg => (s, [], Except.error msg)
    | Except.ok _ =>
        ({ s with fnExists := true }, [Call.createFunction], Except.ok fresh)

/-- AwsLambda.updateCode (src/unnamed/part_004): reads the artifact
bytes, then sends UpdateFunctionCode for the existing function. -/
def updateCode (zipBytes : List Nat) (s : AwsState) :
    AwsState × List Call × Except String Unit :=
  match readZipFileBytes zipBytes with
  | Except.error msg => (s, [], Except.error msg)
  | Except.ok _ => (s, [Call.updateFunctionCode], Except.ok ())

/-- AwsLambda.createFunctionUrl (src/unnamed/part_004): returns an
existing URL configuration unchanged; otherwise sends
CreateFunctionUrlConfig and then AddPermission under the fixed statement
id public-url.  A ResourceConflictException from the grant (the grant
already exists) is swallowed as success; `grantFault` injects any other
grant failure, which is rethrown.  `fresh` is the URL the service
assigns on creation. -/
def createFunctionUrl (grantFault : Option String) (fresh : String)
    (s : AwsState) : AwsState × List Call × Except String String :=
  match s.urlConfig with
  | some url => (s, [Call.getFunctionUrlConfig], Except.ok url)
  | none =>
      let s₁ : AwsState := { s with urlConfig := some fresh }
      let calls := [Call.getFunctionUrlConfig, Call.createFunctionUrlConfig,
        Call.addPermission "public-url"]
      match grantFault with
      | some msg => (s₁, calls, Except.error msg)
      | none =>
          if s₁.permission then
            (s₁, calls, Except.ok fresh)
          else
            ({ s₁ with permission := true }, calls, Except.ok fresh)

end AwsLambda

namespace LambdaApiExample

/-- LambdaApiExample.roleExists (src/unnamed/part_001): GetRole with
NoSuchEntityException mapped to absent; `fault` injects any other
upstream failure, which is rethrown. -/
def roleExists (fault : Option String) (s : AwsState) :
    AwsState × List Call × Except String (Option String) :=
  match fault with
  | some msg => (s, [Call.getRole], Except.error msg)
  | none => (s, [Call.getRole], Except.ok s.roleArn)

/-- LambdaApiExample.createRole (src/unnamed/part_001): CreateRole with
the fixed trust policy, AttachRolePolicy, then the propagation poll;
under the sequentially consistent service model the first poll check
observes the role and the loop exits, so the poll contributes one
GetLambda existence check.  Returns the creation-time arn.  The poll
under delayed visibility is analysed by AwsIam.rolePoll below. -/
def createRole (fresh : String) (s : AwsState) :
    AwsState × List Call × String :=
  ({ s with roleArn := some fresh },
   [Call.createRole, Call.attachRolePolicy, Call.getRole], fresh)

/-- LambdaApiExample.deploy (src/unnamed/part_001): role existence check
and conditional role creation, function existence check branching into
create or updateCode, then createFunctionUrl inside a try/catch whose
handler only logs, leaving the url variable at its initial empty string.
The role arn passed to function creation does not influence any claim
and is not recorded.  The leading container build and test steps are the
external artifact pipeline and are represented by the zipBytes
parameter. -/
def deploy (roleFault fnFault grantFault : Option String)
    (freshRoleArn freshFnArn freshUrl : String) (zipBytes : List Nat)
    (s₀ : AwsState) : AwsState × List Call × Except String String :=
  match roleExists roleFault s₀ with
  | (s₁, c₁, Except.error msg) => (s₁, c₁, Except.error msg)
  | (s₁, c₁, Except.ok found) =>
      let step₂ : AwsState × List Call × String :=
        match found with
        | some arn => (s₁, [], arn)
        | none => createRole freshRoleArn s₁
      match step₂ with
      | (s₂, c₂, _) =>
          match AwsLambda.functionExists fnFault s₂ with
          | (s₃, c₃, Except.error msg) =>
              (s₃, c₁ ++ c₂ ++ c₃, Except.error msg)
          | (s₃, c₃, Except.ok fnEx) =>
              let step₄ : AwsState × List Call × Except String Unit :=
                if fnEx then AwsLambda.updateCode zipBytes s₃
                else
                  match AwsLambda.create "nodejs20.x" "arm64" zipBytes
                      freshFnArn s₃ with
                  | (s₄, c₄, Except.error msg) => (s₄, c₄, Except.error msg)
                  | (s₄, c₄, Except.ok _) => (s₄, c₄, Except.ok ())
              match step₄ with
              | (s₄, c₄, Except.error msg) =>
                  (s₄, c₁ ++ c₂ ++ c₃ ++ c₄, Except.error msg)
              | (s₄, c₄, Except.ok _) =>
                  match AwsLambda.createFunctionUrl grantFault freshUrl s₄ with
                  | (s₅, c₅, urlRes) =>
                      let functionUrl :=
                        match urlRes with
                        | Except.ok u => u
                        | Except.error _ => ""
                      (s₅, c₁ ++ c₂ ++ c₃ ++ c₄ ++ c₅,
                       Except.ok ("Lambda deployed on url " ++ functionUrl))

/-- LambdaApiExample.destroy (src/unnamed/part_001): check and remove
the function, then check and remove the role, then check and delete the
URL configuration, and return the fixed confirmation message built from
the default function name. -/
def destroy (s₀ : AwsState) : AwsState × List Call × String :=
  let step₁ : AwsState × List Call :=
    if s₀.fnExists then
      ({ s₀ with fnExists := false }, [Call.getFunction, Call.deleteFunction])
    else (s₀, [Call.getFunction])
  match step₁ with
  | (s₁, c₁) =>
      let step₂ : AwsState × List Call :=
        match s₁.roleArn with
        | some _ =>
            ({ s₁ with roleArn := none }, [Call.getRole, Call.deleteRole])
        | none => (s₁, [Call.getRole])
      match step₂ with
      | (s₂, c₂) =>
          let step₃ : AwsState × List Call :=
            match s₂.urlConfig with
            | some _ =>
                ({ s₂ with urlConfig := none },
                 [Call.getFunctionUrlConfig, Call.deleteFunctionUrlConfig])
            | none => (s₂, [Call.getFunctionUrlConfig])
          match step₃ with
          | (s₃, c₃) =>
              (s₃, c₁ ++ c₂ ++ c₃,
               "Lambda function lambda-example successfully destroyed")

end LambdaApiExample

namespace AwsIam

/-- The outcome of unrolling the role-propagation poll for a bounded
number of iterations: whether the loop exited within that budget and
how many existence checks it performed. -/
structure PollRun where
  finished : Bool
  polls : Nat
deriving DecidableEq, Repr

/-- The propagation poll inside AwsIam.create (src/src/index.ts, lines
175 to 188) and LambdaApiExample.createRole (src/unnamed/part_001, lines
503 to 517), extracted: the guard compares `attempts` against the
constant maxAttempts = 5 and each iteration performs one role existence
check, breaking when it observes the role and sleeping 2 seconds
otherwise.  `visible k` is what the k-th existence check observes.  The
loop body of the source never increments `attempts`, and this embedding
reproduces that faithfully.  `fuel` is the number of iterations
unrolled. -/
def rolePoll (visible : Nat → Bool) : Nat → Nat → Nat → PollRun
  | 0, _, _ => { finished := false, polls := 0 }
  | fuel + 1, attempts, k =>
      if attempts < 5 then
        if visible k then { finished := true, polls := 1 }
        else
          let r := rolePoll visible fuel attempts (k + 1)
          { r with polls := r.polls + 1 }
      else { finished := true, polls := 0 }

end AwsIam

/-- The http sub-record of the Function URL v2 request context
(src/src/index.ts): each field may be absent on malformed events. -/
structure HttpInfo where
  method : Option String
  sourceIp : Option String
  userAgent : Option String
deriving DecidableEq, Repr

/-- The requestContext of the Function URL v2 event. -/
structure RequestContext where
  requestId : Option String
  http : Option HttpInfo
deriving DecidableEq, Repr

/-- The incoming handler event (src/src/index.ts): the handler only
reads rawPath and the requestContext fields, all of which may be
absent. -/
structure Event where
  rawPath : Option String
  requestContext : Option RequestContext
deriving DecidableEq, Repr

/-- JavaScript default via the logical-or operator: an absent value and
the empty string are both falsy and yield the default. -/
def jsOr (v : Option String) (dflt : String) : String :=
  match v with
  | none => dflt
  | some str => if str = "" then dflt else str

/-- The optional-chained accessor event.requestContext?.http?.method. -/
def ctxMethod (ev : Event) : Option String :=
  ev.requestContext.bind fun rc => rc.http.bind fun h => h.method

/-- The optional-chained accessor event.requestContext?.requestId. -/
def ctxRequestId (ev : Event) : Option String :=
  ev.requestContext.bind fun rc => rc.requestId

/-- The optional-chained accessor event.requestContext?.http?.sourceIp. -/
def ctxSourceIp (ev : Event) : Option String :=
  ev.requestContext.bind fun rc => rc.http.bind fun h => h.sourceIp

/-- The optional-chained accessor event.requestContext?.http?.userAgent. -/
def ctxUserAgent (ev : Event) : Option String :=
  ev.requestContext.bind fun rc => rc.http.bind fun h => h.userAgent

/-- The path the handler dispatches on: event.rawPath defaulted to the
root path. -/
def eventPath (ev : Event) : String := jsOr ev.rawPath "/"

/-- The method the handler dispatches on: the request-context method
defaulted to GET. -/
def eventMethod (ev : Event) : String := jsOr (ctxMethod ev) "GET"

/-- The response shape the handler produces: a status code, the three
headers resp always sets, and a body. -/
structure HttpResponse where
  statusCode : Nat
  contentType : String
  cacheControl : String
  accessControlAllowOrigin : String
  body : String
deriving DecidableEq, Repr

/-- resp (src/src/index.ts): fixes the cache-control and CORS headers on
every response. -/
def resp (statusCode : Nat) (body : String) (contentType : String) :
    HttpResponse :=
  { statusCode := statusCode, contentType := contentType,
    cacheControl := "no-store", accessControlAllowOrigin := "*",
    body := body }

/-- The static HTML page served on the root path (the full markup of the
source is static data and is abbreviated to its document head here). -/
def html : String := "<!doctype html><html lang=\x22en\x22>...</html>"

/-- One rendered JSON member: the quoted key, a colon, the quoted value
(the values the handler serialises contain no characters needing
escapes). -/
def jsonStr (str : String) : String := "\x22" ++ str ++ "\x22"

/-- JSON.stringify member rendering: properties whose value is undefined
are omitted from the output. -/
def jsonFields : List (String × Option String) → List String
  | [] => []
  | (_, none) :: rest => jsonFields rest
  | (k, some v) :: rest => (jsonStr k ++ ":" ++ jsonStr v) :: jsonFields rest

/-- JSON.stringify of a flat string-valued object with the given
property list. -/
def jsonStringify (fields : List (String × Option String)) : String :=
  "\x7b" ++ String.intercalate "," (jsonFields fields) ++ "\x7d"

/-- The property names JSON.stringify actually renders for a property
list: those whose value is defined. -/
def definedKeys (fields : List (String × Option String)) : List String :=
  fields.filterMap fun p => if p.2.isSome then some p.1 else none

/-- Whether a rendered JSON body contains a member with the given key,
as the quoted key occurring in the body text. -/
def containsField (body : String) (k : String) : Bool :=
  decide ((jsonStr k).data <:+: body.data)

/-- The property list of the /api/info response object, in source order:
message, now (the Date.toISOString value, supplied as the `now`
parameter), requestId, ip, userAgent. -/
def infoFields (now : String) (ev : Event) : List (String × Option String) :=
  [("message", some "Hello from /api/info"), ("now", some now),
   ("requestId", ctxRequestId ev), ("ip", ctxSourceIp ev),
   ("userAgent", ctxUserAgent ev)]

/-- handler (src/src/index.ts): defaults rawPath to the root and the
method to GET, serves the HTML page on GET for the root or empty path,
the JSON info object on GET /api/info, and a JSON 404 with the
requested path otherwise.  `now` stands for the Date.toISOString value
taken at handling time. -/
def handler (now : String) (ev : Event) : HttpResponse :=
  let rawPath := jsOr ev.rawPath "/"
  let method := jsOr (ctxMethod ev) "GET"
  if method = "GET" ∧ (rawPath = "/" ∨ rawPath = "") then
    resp 200 html "text/html; charset=utf-8"
  else if method = "GET" ∧ rawPath = "/api/info" then
    resp 200 (jsonStringify (infoFields now ev))
      "application/json; charset=utf-8"
  else
    resp 404 (jsonStringify [("error", some "Not Found"),
      ("path", some rawPath)]) "application/json; charset=utf-8"

/-- C1: Role ensureExists is idempotent.  If the existence check already
yields an ARN, createRole performs no mutation, issues only the lookup
call, and returns that ARN unchanged; starting from an account without
the role, two sequential calls perform exactly one CreateRole call
between them and both return the same ARN. -/
theorem createRole_idempotent (fresh₁ fresh₂ : String) (s : AwsState) :
    (∀ arn, s.roleArn = some arn →
      LambdaExample.createRole fresh₁ s = (s, [Call.getRole], arn)) ∧
    (s.roleArn = none →
      (LambdaExample.createRole fresh₂
          (LambdaExample.createRole fresh₁ s).1).2.2 =
        (LambdaExample.createRole fresh₁ s).2.2 ∧
      ((LambdaExample.createRole fresh₁ s).2.1 ++
        (LambdaExample.createRole fresh₂
          (LambdaExample.createRole fresh₁ s).1).2.1).count
          Call.createRole = 1) := by
  constructor
  · intro arn h
    simp [LambdaExample.createRole, h]
  · intro h
    simp [LambdaExample.createRole, h, List.count_cons, List.count_append]

/-- Witness for C1 at a concrete state: the already-exists branch at a
state holding the role, and the from-scratch double call. -/
theorem createRole_idempotent_witness :
    (LambdaExample.createRole "arn-new" ⟨some "arn-0", false, none, false⟩ =
      (⟨some "arn-0", false, none, false⟩, [Call.getRole], "arn-0")) ∧
    ((LambdaExample.createRole "arn-b"
        (LambdaExample.createRole "arn-a" ⟨none, false, none, false⟩).1).2.2 =
      (LambdaExample.createRole "arn-a" ⟨none, false, none, false⟩).2.2) := by
  have h₁ := createRole_idempotent "arn-new" "x" ⟨some "arn-0", false, none, false⟩
  have h₂ := createRole_idempotent "arn-a" "arn-b" ⟨none, false, none, false⟩
  exact ⟨h₁.1 "arn-0" rfl, (h₂.2 rfl).1⟩

/-- C2: createFunctionUrl is idempotent end-to-end.  If a URL
configuration exists, the call returns it unchanged with no create and
no grant; otherwise it creates the configuration and grants the
anonymous-invoke permission under the fixed statement id public-url,
swallowing an already-exists conflict as success while propagating any
other grant failure; two sequential calls yield the same URL with at
most one create and one grant between them. -/
theorem createFunctionUrl_idempotent (gf : Option String) (u₁ u₂ : String)
    (s : AwsState) :
    (∀ url, s.urlConfig = some url →
      AwsLambda.createFunctionUrl gf u₁ s =
        (s, [Call.getFunctionUrlConfig], Except.ok url)) ∧
    (s.urlConfig = none → gf = none →
      (AwsLambda.createFunctionUrl gf u₁ s).2.2 = Except.ok u₁ ∧
      (AwsLambda.createFunctionUrl gf u₁ s).2.1 =
        [Call.getFunctionUrlConfig, Call.createFunctionUrlConfig,
         Call.addPermission "public-url"]) ∧
    (s.urlConfig = none → ∀ msg, gf = some msg →
      (AwsLambda.createFunctionUrl gf u₁ s).2.2 = Except.error msg) ∧
    (gf = none →
      (AwsLambda.createFunctionUrl none u₂
          (AwsLambda.createFunctionUrl gf u₁ s).1).2.2 =
        (AwsLambda.createFunctionUrl gf u₁ s).2.2 ∧
      ((AwsLambda.createFunctionUrl gf u₁ s).2.1 ++
        (AwsLambda.createFunctionUrl none u₂
          (AwsLambda.createFunctionUrl gf u₁ s).1).2.1).count
          Call.createFunctionUrlConfig ≤ 1 ∧
      ((AwsLambda.createFunctionUrl gf u₁ s).2.1 ++
        (AwsLambda.createFunctionUrl none u₂
          (AwsLambda.createFunctionUrl gf u₁ s).1).2.1).count
          (Call.addPermission "public-url") ≤ 1) := by
  refine ⟨?_, ?_, ?_, ?_⟩
  · intro url h
    simp [AwsLambda.createFunctionUrl, h]
  · intro h hgf
    subst hgf
    by_cases hp : s.permission <;>
      simp [AwsLambda.createFunctionUrl, h, hp]
  · intro h msg hgf
    subst hgf
    simp [AwsLambda.createFunctionUrl, h]
  · intro hgf
    subst hgf
    rcases hu : s.urlConfig with _ | url <;>
      by_cases hp : s.permission <;>
        simp [AwsLambda.createFunctionUrl, hu, hp, List.count_cons,
          List.count_append]

/-- Witness for C2 at concrete states: the already-exists branch, the
fresh creation branch, the propagated grant failure, and the double
call starting from an empty account. -/
theorem createFunctionUrl_idempotent_witness :
    (AwsLambda.createFunctionUrl none "u-new" ⟨none, true, some "u-0", true⟩ =
      (⟨none, true, some "u-0", true⟩, [Call.getFunctionUrlConfig],
        Except.ok "u-0")) ∧
    ((AwsLambda.createFunctionUrl none "u-1"
        ⟨none, true, none, false⟩).2.2 = Except.ok "u-1") ∧
    ((AwsLambda.createFunctionUrl (some "AccessDenied") "u-1"
        ⟨none, true, none, false⟩).2.2 = Except.error "AccessDenied") ∧
    ((AwsLambda.createFunctionUrl none "u-2"
        (AwsLambda.createFunctionUrl none "u-1"
          ⟨none, true, none, false⟩).1).2.2 =
      (AwsLambda.createFunctionUrl none "u-1"
        ⟨none, true, none, false⟩).2.2) := by
  have h₁ := createFunctionUrl_idempotent none "u-new" "x"
    ⟨none, true, some "u-0", true⟩
  have h₂ := createFunctionUrl_idempotent none "u-1" "u-2"
    ⟨none, true, none, false⟩
  have h₃ := createFunctionUrl_idempotent (some "AccessDenied") "u-1" "x"
    ⟨none, true, none, false⟩
  exact ⟨h₁.1 "u-0" rfl, (h₂.2.1 rfl rfl).1,
    h₃.2.2.1 rfl "AccessDenied" rfl, (h₂.2.2.2 rfl).1⟩

/-- C3 (refuting the stated bound): because the source loop never
increments its attempts counter, a role that never becomes visible makes
the poll run forever: for every number of unrolled iterations the loop
has not exited and has performed that many existence checks, so the
number of polls exceeds every finite budget, in particular the claimed
5-attempt, 10-second worst case. -/
theorem rolePoll_never_finishes (fuel k : Nat) :
    (AwsIam.rolePoll (fun _ => false) fuel 0 k).finished = false ∧
    (AwsIam.rolePoll (fun _ => false) fuel 0 k).polls = fuel := by
  induction fuel generalizing k with
  | zero => simp [AwsIam.rolePoll]
  | succ n ih => simp [AwsIam.rolePoll, ih]

/-- C4: the create-vs-update branch of deploy is exclusive and
exhaustive.  With no injected upstream faults, if the function existence
check reports false, deploy never sends UpdateFunctionCode and (once the
artifact is non-empty) sends CreateFunction; if it reports true, deploy
never sends CreateFunction and (once the artifact is non-empty) sends
UpdateFunctionCode. -/
theorem deploy_branch (fr ff fu : String) (zipBytes : List Nat)
    (s : AwsState) :
    (s.fnExists = false →
      Call.updateFunctionCode ∉
        (LambdaApiExample.deploy none none none fr ff fu zipBytes s).2.1 ∧
      (zipBytes.length ≠ 0 →
        Call.createFunction ∈
          (LambdaApiExample.deploy none none none fr ff fu zipBytes s).2.1)) ∧
    (s.fnExists = true →
      Call.createFunction ∉
        (LambdaApiExample.deploy none none none fr ff fu zipBytes s).2.1 ∧
      (zipBytes.length ≠ 0 →
        Call.updateFunctionCode ∈
          (LambdaApiExample.deploy none none none fr ff fu zipBytes s).2.1)) := by
  rcases s with ⟨r, fn, u, p⟩
  constructor
  · rintro rfl
    constructor
    · rcases r with _ | arn <;>
        rcases hz : zipBytes.length with _ | n <;>
          rcases hu : u with _ | url <;>
            by_cases hp : p <;>
              simp [LambdaApiExample.deploy, LambdaApiExample.roleExists,
                LambdaApiExample.createRole, AwsLambda.functionExists,
                AwsLambda.create, AwsLambda.updateCode,
                AwsLambda.readZipFileBytes, AwsLambda.createFunctionUrl,
                AwsLambda.runtimes, AwsLambda.architectures, hz, hp]
    · intro hz
      rcases r with _ | arn <;>
        rcases hu : u with _ | url <;>
          by_cases hp : p <;>
            simp [LambdaApiExample.deploy, LambdaApiExample.roleExists,
              LambdaApiExample.createRole, AwsLambda.functionExists,
              AwsLambda.create, AwsLambda.updateCode,
              AwsLambda.readZipFileBytes, AwsLambda.createFunctionUrl,
              AwsLambda.runtimes, AwsLambda.architectures, hz, hp]
  · rintro rfl
    constructor
    · rcases r with _ | arn <;>
        rcases hz : zipBytes.length with _ | n <;>
          rcases hu : u with _ | url <;>
            by_cases hp : p <;>
              simp [LambdaApiExample.deploy, LambdaApiExample.roleExists,
                LambdaApiExample.createRole, AwsLambda.functionExists,
                AwsLambda.create, AwsLambda.updateCode,
                AwsLambda.readZipFileBytes, AwsLambda.createFunctionUrl,
                AwsLambda.runtimes, AwsLambda.architectures, hz, hp]
    · intro hz
      rcases r with _ | arn <;>
        rcases hu : u with _ | url <;>
          by_cases hp : p <;>
            simp [LambdaApiExample.deploy, LambdaApiExample.roleExists,
              LambdaApiExample.createRole, AwsLambda.functionExists,
              AwsLambda.create, AwsLambda.updateCode,
              AwsLambda.readZipFileBytes, AwsLambda.createFunctionUrl,
              AwsLambda.runtimes, AwsLambda.architectures, hz, hp]

/-- Witness for C4 at concrete states: a fresh account takes the create
path, an account with the function takes the update path. -/
theorem deploy_branch_witness :
    (Call.updateFunctionCode ∉
      (LambdaApiExample.deploy none none none "r" "f" "u" [7]
        ⟨none, false, none, false⟩).2.1 ∧
     Call.createFunction ∈
      (LambdaApiExample.deploy none none none "r" "f" "u" [7]
        ⟨none, false, none, false⟩).2.1) ∧
    (Call.createFunction ∉
      (LambdaApiExample.deploy none none none "r" "f" "u" [7]
        ⟨some "a", true, some "u0", true⟩).2.1 ∧
     Call.updateFunctionCode ∈
      (LambdaApiExample.deploy none none none "r" "f" "u" [7]
        ⟨some "a", true, some "u0", true⟩).2.1) := by
  have h₁ := deploy_branch "r" "f" "u" [7] ⟨none, false, none, false⟩
  have h₂ := deploy_branch "r" "f" "u" [7] ⟨some "a", true, some "u0", true⟩
  exact ⟨⟨(h₁.1 rfl).1, (h₁.1 rfl).2 (by decide)⟩,
    ⟨(h₂.2 rfl).1, (h₂.2 rfl).2 (by decide)⟩⟩

/-- C5 (amended): failures from the role and function reconciler steps
propagate unchanged through deploy, which does not catch them, and an
empty-artifact failure in the function step likewise aborts the run; a
failure raised by createFunctionUrl, however, is caught by the
orchestrator and deploy still returns the success message with an empty
URL. -/
theorem deploy_error_propagation (roleFault fnFault grantFault : Option String)
    (fr ff fu : String) (zipBytes : List Nat) (s : AwsState) :
    (∀ msg, roleFault = some msg →
      (LambdaApiExample.deploy roleFault fnFault grantFault fr ff fu
        zipBytes s).2.2 = Except.error msg) ∧
    (roleFault = none → ∀ msg, fnFault = some msg →
      (LambdaApiExample.deploy roleFault fnFault grantFault fr ff fu
        zipBytes s).2.2 = Except.error msg) ∧
    (roleFault = none → fnFault = none → zipBytes.length = 0 →
      (LambdaApiExample.deploy roleFault fnFault grantFault fr ff fu
        zipBytes s).2.2 = Except.error "Zip file is empty") ∧
    (roleFault = none → fnFault = none → zipBytes.length ≠ 0 →
      ∀ msg, grantFault = some msg → s.urlConfig = none →
      (LambdaApiExample.deploy roleFault fnFault grantFault fr ff fu
        zipBytes s).2.2 = Except.ok "Lambda deployed on url ") := by
  rcases s with ⟨r, fn, u, p⟩
  refine ⟨?_, ?_, ?_, ?_⟩
  · rintro msg rfl
    simp [LambdaApiExample.deploy, LambdaApiExample.roleExists]
  · rintro rfl msg rfl
    rcases r with _ | arn <;>
      simp [LambdaApiExample.deploy, LambdaApiExample.roleExists,
        LambdaApiExample.createRole, AwsLambda.functionExists]
  · rintro rfl rfl hz
    rcases r with _ | arn <;> rcases fn <;>
      simp [LambdaApiExample.deploy, LambdaApiExample.roleExists,
        LambdaApiExample.createRole, AwsLambda.functionExists,
        AwsLambda.create, AwsLambda.updateCode, AwsLambda.readZipFileBytes,
        AwsLambda.runtimes, AwsLambda.architectures, hz]
  · rintro rfl rfl hz msg rfl hu
    subst hu
    rcases r with _ | arn <;> rcases fn <;>
      simp [LambdaApiExample.deploy, LambdaApiExample.roleExists,
        LambdaApiExample.createRole, AwsLambda.functionExists,
        AwsLambda.create, AwsLambda.updateCode, AwsLambda.readZipFileBytes,
        AwsLambda.createFunctionUrl, AwsLambda.runtimes,
        AwsLambda.architectures, hz]

/-- Counterexample to C5 as stated: on a fresh account with a non-empty
artifact, an injected non-conflict failure of the permission grant
inside createFunctionUrl does not propagate to the caller; deploy
returns the success message with an empty URL instead of aborting with
that error. -/
theorem deploy_url_error_swallowed :
    (LambdaApiExample.deploy none none (some "AccessDenied") "r" "f" "u" [7]
      ⟨none, false, none, false⟩).2.2 = Except.ok "Lambda deployed on url " ∧
    (LambdaApiExample.deploy none none (some "AccessDenied") "r" "f" "u" [7]
      ⟨none, false, none, false⟩).2.2 ≠ Except.error "AccessDenied" := by
  constructor
  · rfl
  · exact fun h => Except.noConfusion h

/-- Witness for the amended C5 at concrete inputs: a role-step fault and
a function-step fault abort the run with that error, and a grant fault
is caught. -/
theorem deploy_error_propagation_witness :
    ((LambdaApiExample.deploy (some "boom-role") none none "r" "f" "u" [7]
      ⟨none, false, none, false⟩).2.2 = Except.error "boom-role") ∧
    ((LambdaApiExample.deploy none (some "boom-fn") none "r" "f" "u" [7]
      ⟨none, false, none, false⟩).2.2 = Except.error "boom-fn") ∧
    ((LambdaApiExample.deploy none none none "r" "f" "u" []
      ⟨none, false, none, false⟩).2.2 = Except.error "Zip file is empty") ∧
    ((LambdaApiExample.deploy none none (some "boom-grant") "r" "f" "u" [7]
      ⟨none, false, none, false⟩).2.2 = Except.ok "Lambda deployed on url ") := by
  have h₁ := deploy_error_propagation (some "boom-role") none none
    "r" "f" "u" [7] ⟨none, false, none, false⟩
  have h₂ := deploy_error_propagation none (some "boom-fn") none
    "r" "f" "u" [7] ⟨none, false, none, false⟩
  have h₃ := deploy_error_propagation none none none
    "r" "f" "u" [] ⟨none, false, none, false⟩
  have h₄ := deploy_error_propagation none none (some "boom-grant")
    "r" "f" "u" [7] ⟨none, false, none, false⟩
  exact ⟨h₁.1 "boom-role" rfl, h₂.2.1 rfl "boom-fn" rfl,
    h₃.2.2.1 rfl rfl rfl,
    h₄.2.2.2 rfl rfl (by decide) "boom-grant" rfl rfl⟩

/-- C6: destroy follows the fixed order function, then role, then URL.
From any starting state the final state has neither the function nor the
role, the confirmation message is returned, and the issued calls split
into a function segment, then a role segment, then a URL segment, each
deleting its resource exactly when it was present. -/
theorem destroy_order (s₀ : AwsState) :
    (LambdaApiExample.destroy s₀).1.fnExists = false ∧
    (LambdaApiExample.destroy s₀).1.roleArn = none ∧
    (LambdaApiExample.destroy s₀).2.2 =
      "Lambda function lambda-example successfully destroyed" ∧
    ∃ fc rc uc, (LambdaApiExample.destroy s₀).2.1 = fc ++ rc ++ uc ∧
      (∀ c ∈ fc, c = Call.getFunction ∨ c = Call.deleteFunction) ∧
      (∀ c ∈ rc, c = Call.getRole ∨ c = Call.deleteRole) ∧
      (∀ c ∈ uc,
        c = Call.getFunctionUrlConfig ∨ c = Call.deleteFunctionUrlConfig) ∧
      (s₀.fnExists = true ↔ Call.deleteFunction ∈ fc) ∧
      (s₀.roleArn.isSome = true ↔ Call.deleteRole ∈ rc) ∧
      (s₀.urlConfig.isSome = true ↔ Call.deleteFunctionUrlConfig ∈ uc) := by
  refine ⟨?_, ?_, ?_,
    (if s₀.fnExists then [Call.getFunction, Call.deleteFunction]
     else [Call.getFunction]),
    (if s₀.roleArn.isSome then [Call.getRole, Call.deleteRole]
     else [Call.getRole]),
    (if s₀.urlConfig.isSome then
       [Call.getFunctionUrlConfig, Call.deleteFunctionUrlConfig]
     else [Call.getFunctionUrlConfig]),
    ?_, ?_, ?_, ?_, ?_, ?_, ?_⟩ <;>
  · rcases s₀ with ⟨r, fn, u, p⟩
    rcases r with _ | arn <;> rcases fn <;> rcases u with _ | url <;>
      simp [LambdaApiExample.destroy]

/-- Witness for C6 at the fully provisioned state: all three resources
present, destroy clears the function and the role. -/
theorem destroy_order_witness :
    (LambdaApiExample.destroy ⟨some "a", true, some "u0", true⟩).1.fnExists =
      false ∧
    (LambdaApiExample.destroy ⟨some "a", true, some "u0", true⟩).1.roleArn =
      none ∧
    (LambdaApiExample.destroy ⟨some "a", true, some "u0", true⟩).2.2 =
      "Lambda function lambda-example successfully destroyed" := by
  have h := destroy_order ⟨some "a", true, some "u0", true⟩
  exact ⟨h.1, h.2.1, h.2.2.1⟩

/-- C7: function create fails fast on invalid enums.  A runtime
identifier outside the platform runtime set makes create raise the
fatal configuration error with no network call issued, and a valid
runtime with an architecture outside the architecture set likewise
fails with no network call, both regardless of the artifact. -/
theorem create_failfast_enum (runtime architecture : String)
    (zipBytes : List Nat) (fresh : String) (s : AwsState) :
    (runtime ∉ AwsLambda.runtimes →
      AwsLambda.create runtime architecture zipBytes fresh s =
        (s, [], Except.error ("Unsupported runtime: " ++ runtime))) ∧
    (runtime ∈ AwsLambda.runtimes → architecture ∉ AwsLambda.architectures →
      AwsLambda.create runtime architecture zipBytes fresh s =
        (s, [], Except.error ("Unsupported architecture: " ++ architecture))) := by
  constructor
  · intro h
    simp [AwsLambda.create, h]
  · intro h₁ h₂
    simp [AwsLambda.create, h₁, h₂]

/-- Witness for C7 at concrete inputs: an unknown runtime and an unknown
architecture are both rejected with the empty call list. -/
theorem create_failfast_enum_witness :
    (AwsLambda.create "not-a-real-runtime" "arm64" [7] "f"
      ⟨none, false, none, false⟩ =
      (⟨none, false, none, false⟩, [],
        Except.error "Unsupported runtime: not-a-real-runtime")) ∧
    (AwsLambda.create "nodejs20.x" "not-a-real-arch" [7] "f"
      ⟨none, false, none, false⟩ =
      (⟨none, false, none, false⟩, [],
        Except.error "Unsupported architecture: not-a-real-arch")) := by
  have h₁ := create_failfast_enum "not-a-real-runtime" "arm64" [7] "f"
    ⟨none, false, none, false⟩
  have h₂ := create_failfast_enum "nodejs20.x" "not-a-real-arch" [7] "f"
    ⟨none, false, none, false⟩
  exact ⟨h₁.1 (by decide), h₂.2 (by decide) (by decide)⟩

/-- C8: an empty artifact is a fatal precondition.  Reading a
zero-length artifact fails; create and updateCode then fail without
issuing their network call; deploy with a zero-length artifact aborts
with that error before any CreateFunction or UpdateFunctionCode call;
and whenever create or updateCode did issue its call, the artifact was
non-empty. -/
theorem empty_artifact_failfast (runtime architecture : String)
    (zipBytes : List Nat) (fresh fr ff fu : String) (s : AwsState) :
    (zipBytes.length = 0 →
      AwsLambda.readZipFileBytes zipBytes =
        Except.error "Zip file is empty") ∧
    (zipBytes.length = 0 →
      Call.createFunction ∉
        (AwsLambda.create runtime architecture zipBytes fresh s).2.1 ∧
      (runtime ∈ AwsLambda.runtimes → architecture ∈ AwsLambda.architectures →
        (AwsLambda.create runtime architecture zipBytes fresh s).2.2 =
          Except.error "Zip file is empty")) ∧
    (zipBytes.length = 0 →
      AwsLambda.updateCode zipBytes s =
        (s, [], Except.error "Zip file is empty")) ∧
    (zipBytes.length = 0 →
      (LambdaApiExample.deploy none none none fr ff fu zipBytes s).2.2 =
        Except.error "Zip file is empty" ∧
      Call.createFunction ∉
        (LambdaApiExample.deploy none none none fr ff fu zipBytes s).2.1 ∧
      Call.updateFunctionCode ∉
        (LambdaApiExample.deploy none none none fr ff fu zipBytes s).2.1) ∧
    (Call.createFunction ∈
        (AwsLambda.create runtime architecture zipBytes fresh s).2.1 →
      zipBytes.length ≠ 0) ∧
    (Call.updateFunctionCode ∈ (AwsLambda.updateCode zipBytes s).2.1 →
      zipBytes.length ≠ 0) := by
  refine ⟨?_, ?_, ?_, ?_, ?_, ?_⟩
  · intro hz
    simp [AwsLambda.readZipFileBytes, hz]
  · intro hz
    constructor
    · by_cases h₁ : runtime ∈ AwsLambda.runtimes <;>
        by_cases h₂ : architecture ∈ AwsLambda.architectures <;>
          simp [AwsLambda.create, AwsLambda.readZipFileBytes, hz, h₁, h₂]
    · intro h₁ h₂
      simp [AwsLambda.create, AwsLambda.readZipFileBytes, hz, h₁, h₂]
  · intro hz
    simp [AwsLambda.updateCode, AwsLambda.readZipFileBytes, hz]
  · intro hz
    rcases s with ⟨r, fn, u, p⟩
    rcases r with _ | arn <;> rcases fn <;>
      simp [LambdaApiExample.deploy, LambdaApiExample.roleExists,
        LambdaApiExample.createRole, AwsLambda.functionExists,
        AwsLambda.create, AwsLambda.updateCode, AwsLambda.readZipFileBytes,
        AwsLambda.runtimes, AwsLambda.architectures, hz]
  · intro hmem
    intro hz
    rw [show zipBytes = ([] : List Nat) from List.length_eq_zero.mp hz] at hmem
    by_cases h₁ : runtime ∈ AwsLambda.runtimes <;>
      by_cases h₂ : architecture ∈ AwsLambda.architectures <;>
        simp [AwsLambda.create, AwsLambda.readZipFileBytes, h₁, h₂] at hmem
  · intro hmem
    intro hz
    rw [show zipBytes = ([] : List Nat) from List.length_eq_zero.mp hz] at hmem
    simp [AwsLambda.updateCode, AwsLambda.readZipFileBytes] at hmem

/-- Witness for C8 at concrete inputs: the empty artifact makes the
read, the create, the update and the whole deploy fail, with no code
upload calls issued by deploy. -/
theorem empty_artifact_failfast_witness :
    (AwsLambda.readZipFileBytes [] = Except.error "Zip file is empty") ∧
    ((AwsLambda.create "nodejs20.x" "arm64" [] "f"
        ⟨none, false, none, false⟩).2.2 = Except.error "Zip file is empty") ∧
    (AwsLambda.updateCode [] ⟨none, true, none, false⟩ =
      (⟨none, true, none, false⟩, [], Except.error "Zip file is empty")) ∧
    ((LambdaApiExample.deploy none none none "r" "f" "u" []
        ⟨none, false, none, false⟩).2.2 = Except.error "Zip file is empty") := by
  have h₁ := empty_artifact_failfast "nodejs20.x" "arm64" [] "f" "r" "f" "u"
    ⟨none, false, none, false⟩
  have h₂ := empty_artifact_failfast "nodejs20.x" "arm64" [] "f" "r" "f" "u"
    ⟨none, true, none, false⟩
  exact ⟨h₁.1 rfl, (h₁.2.1 rfl).2 (by decide) (by decide),
    h₂.2.2.1 rfl, (h₁.2.2.2.1 rfl).1⟩

/-- A JavaScript-or default with a non-empty default is never the empty
string, so the dispatched path is never empty. -/
theorem jsOr_ne_empty (v : Option String) (dflt : String) (h : dflt ≠ "") :
    jsOr v dflt ≠ "" := by
  unfold jsOr
  rcases v with _ | str
  · exact h
  · by_cases hs : str = "" <;> simp [hs, h]

/-- The handler dispatch written over the named accessors: definitional
unfolding of the let bindings in handler. -/
theorem handler_eq (now : String) (ev : Event) :
    handler now ev =
      if eventMethod ev = "GET" ∧ (eventPath ev = "/" ∨ eventPath ev = "")
      then resp 200 html "text/html; charset=utf-8"
      else if eventMethod ev = "GET" ∧ eventPath ev = "/api/info" then
        resp 200 (jsonStringify (infoFields now ev))
          "application/json; charset=utf-8"
      else
        resp 404 (jsonStringify [("error", some "Not Found"),
          ("path", some (eventPath ev))])
          "application/json; charset=utf-8" := rfl

/-- C9 (amended): the deployed handler implements the two-route
contract.  Every response carries cache-control no-store and
access-control-allow-origin *; GET on the root (or defaulted empty)
path returns 200 text/html; GET on /api/info returns 200 with the JSON
serialisation of the info object, which always renders the message and
now members and renders requestId, ip and userAgent whenever the event
request context supplies them; every other method and path combination
returns 404 with the JSON body of error Not Found and the requested
path. -/
theorem handler_contract (now : String) (ev : Event) :
    ((handler now ev).cacheControl = "no-store" ∧
     (handler now ev).accessControlAllowOrigin = "*") ∧
    (eventMethod ev = "GET" → eventPath ev = "/" →
      handler now ev = resp 200 html "text/html; charset=utf-8") ∧
    (eventMethod ev = "GET" → eventPath ev = "/api/info" →
      handler now ev = resp 200 (jsonStringify (infoFields now ev))
        "application/json; charset=utf-8" ∧
      "message" ∈ definedKeys (infoFields now ev) ∧
      "now" ∈ definedKeys (infoFields now ev) ∧
      ((ctxRequestId ev).isSome = true →
        "requestId" ∈ definedKeys (infoFields now ev)) ∧
      ((ctxSourceIp ev).isSome = true →
        "ip" ∈ definedKeys (infoFields now ev)) ∧
      ((ctxUserAgent ev).isSome = true →
        "userAgent" ∈ definedKeys (infoFields now ev))) ∧
    (¬ (eventMethod ev = "GET" ∧
        (eventPath ev = "/" ∨ eventPath ev = "/api/info")) →
      handler now ev = resp 404 (jsonStringify [("error", some "Not Found"),
        ("path", some (eventPath ev))]) "application/json; charset=utf-8") := by
  have hne : eventPath ev ≠ "" := jsOr_ne_empty ev.rawPath "/" (by decide)
  refine ⟨?_, ?_, ?_, ?_⟩
  · rw [handler_eq]
    constructor <;> (split <;> first | rfl | (split <;> rfl))
  · intro hm hp
    rw [handler_eq, hm, hp]
    simp
  · intro hm hp
    rw [handler_eq, hm, hp]
    refine ⟨by simp, ?_, ?_, ?_, ?_, ?_⟩
    · simp [definedKeys, infoFields]
    · simp [definedKeys, infoFields]
    · intro h
      simp [definedKeys, infoFields, h]
    · intro h
      simp [definedKeys, infoFields, h]
    · intro h
      simp [definedKeys, infoFields, h]
  · intro hneg
    have h₁ : ¬ (eventMethod ev = "GET" ∧
        (eventPath ev = "/" ∨ eventPath ev = "")) := by
      rintro ⟨hm, hp | hp⟩
      · exact hneg ⟨hm, Or.inl hp⟩
      · exact hne hp
    have h₂ : ¬ (eventMethod ev = "GET" ∧ eventPath ev = "/api/info") := by
      rintro ⟨hm, hp⟩
      exact hneg ⟨hm, Or.inr hp⟩
    rw [handler_eq, if_neg h₁, if_neg h₂]

set_option maxRecDepth 8192 in
/-- Counterexample to C9 as stated: for the event requesting GET
/api/info with no request context, the response is 200 but its JSON
body does not contain a requestId member, because JSON.stringify omits
properties whose value is undefined. -/
theorem handler_apiInfo_missing_fields :
    (handler "2024-01-01T00:00:00.000Z"
      ⟨some "/api/info", none⟩).statusCode = 200 ∧
    containsField
      (handler "2024-01-01T00:00:00.000Z" ⟨some "/api/info", none⟩).body
      "requestId" = false := by
  constructor
  · rfl
  · decide

/-- Witness for the amended C9 at concrete events: the root page, the
info route with a full request context rendering all five members, and
a 404 for an unknown path. -/
theorem handler_contract_witness :
    (handler "t0" ⟨some "/", some ⟨some "rid",
        some ⟨some "GET", some "1.2.3.4", some "UA"⟩⟩⟩ =
      resp 200 html "text/html; charset=utf-8") ∧
    ("requestId" ∈ definedKeys (infoFields "t0"
      ⟨some "/api/info", some ⟨some "rid",
        some ⟨some "GET", some "1.2.3.4", some "UA"⟩⟩⟩)) ∧
    (handler "t0" ⟨some "/nope", none⟩ =
      resp 404 (jsonStringify [("error", some "Not Found"),
        ("path", some "/nope")]) "application/json; charset=utf-8") := by
  have h₁ := handler_contract "t0" ⟨some "/", some ⟨some "rid",
    some ⟨some "GET", some "1.2.3.4", some "UA"⟩⟩⟩
  have h₂ := handler_contract "t0" ⟨some "/api/info", some ⟨some "rid",
    some ⟨some "GET", some "1.2.3.4", some "UA"⟩⟩⟩
  have h₃ := handler_contract "t0" ⟨some "/nope", none⟩
  refine ⟨h₁.2.1 rfl rfl, (h₂.2.2.1 rfl rfl).2.2.2.1 rfl, ?_⟩
  have h4 := h₃.2.2.2 (by decide)
  simpa using h4

/-- C10: the handler totalises malformed events by defaulting.  A
missing or empty rawPath dispatches as the root path, a missing
request-context method dispatches as GET, and the empty event yields
the 200 HTML page. -/
theorem handler_defaults (now : String) (ev : Event) :
    (ev.rawPath = none ∨ ev.rawPath = some "" → eventPath ev = "/") ∧
    (ctxMethod ev = none → eventMethod ev = "GET") ∧
    (handler now ⟨none, none⟩ = resp 200 html "text/html; charset=utf-8") := by
  refine ⟨?_, ?_, rfl⟩
  · rintro (h | h) <;> simp [eventPath, jsOr, h]
  · intro h
    simp [eventMethod, jsOr, h]

/-- Witness for C10 at concrete events: an event with an empty path and
no context is served the root page. -/
theorem handler_defaults_witness :
    eventPath (⟨some "", none⟩ : Event) = "/" ∧
    eventMethod (⟨some "", none⟩ : Event) = "GET" ∧
    handler "t0" ⟨none, none⟩ = resp 200 html "text/html; charset=utf-8" := by
  have h := handler_defaults "t0" ⟨some "", none⟩
  exact ⟨h.1 (Or.inr rfl), h.2.1 rfl, h.2.2⟩
